import Mathlib

set_option maxRecDepth 40000

/-!
Verification development for the payments repository.

This file gives a shallow embedding of the settlement-orchestration logic:
the token/chain registry (`src/lib/tokens.ts`), the allowance checker
(`checkTokenApprovalNeeded` in `src/lib/tokenUtils.ts`), the quote helpers
and bridge execution flow of `PayPopup.tsx`, the confirmation-handling
effect of `App.tsx`, the simplified bridge request handler of the
`getSwapData` API route, and the fund-request status PATCH route.

JavaScript `number` arithmetic (`parseFloat`, `*`, `Math.pow`, `Math.floor`)
is modelled exactly as IEEE-754 binary64 with round-to-nearest, ties-to-even.
Doubles are represented as dyadic rationals `m * 2^e`; the exponent search is
bounded by an ample fuel (values within `2^±4096`), and overflow/underflow to
infinities/subzero are not modelled — every value arising in this development
is far inside the normal range.
-/

/-! ## Integer-level binary64 rounding model -/

/-- `log2Fuel fuel n = ⌊log₂ n⌋` for `1 ≤ n < 2^fuel` (and `0` for `n ≤ 1`). -/
def log2Fuel : ℕ → ℕ → ℕ
  | 0, _ => 0
  | fuel + 1, n => if n ≤ 1 then 0 else log2Fuel fuel (n / 2) + 1

/-- `negExpFuel fuel a b` is the least `j` with `a * 2^j ≥ b` (for `1 ≤ a < b`,
`b / a ≤ 2^fuel`). Used to find `⌊log₂ (a/b)⌋ = -j` when `a/b < 1`. -/
def negExpFuel : ℕ → ℕ → ℕ → ℕ
  | 0, _, _ => 0
  | fuel + 1, a, b => if b ≤ a then 0 else negExpFuel fuel (2 * a) b + 1

/-- `⌊log₂ (a/b)⌋` for positive naturals `a, b`. -/
def qlog2 (a b : ℕ) : ℤ :=
  if b ≤ a then (log2Fuel 4096 (a / b) : ℤ)
  else -(negExpFuel 4096 a b : ℤ)

/-- Round the positive rational `a/b` to a 53-bit significand at binary
exponent `e` (i.e. compute `round((a/b) / 2^(e-52))` with ties-to-even).
Callers pass `e = ⌊log₂ (a/b)⌋`. -/
def roundAt (a b : ℕ) (e : ℤ) : ℕ :=
  let sh : ℤ := 52 - e
  let A := a * 2 ^ (max sh 0).toNat
  let D := b * 2 ^ (max (-sh) 0).toNat
  let q := A / D
  let r := A % D
  if 2 * r < D then q
  else if D < 2 * r then q + 1
  else if q % 2 = 0 then q else q + 1

/-- A dyadic rational `m * 2^e`, the exact value of an IEEE-754 binary64
number (sign carried by `m`). -/
structure Dyadic where
  m : ℤ
  e : ℤ
deriving DecidableEq, Repr

/-- Exact value of a decimal numeric literal: `mantissa * 10^exp10`.
This is the abstraction of a numeric string accepted by JS `parseFloat`. -/
structure DecValue where
  mantissa : ℤ
  exp10 : ℤ
deriving DecidableEq, Repr

/-- Round the exact decimal value `v` to the nearest binary64 double
(ties-to-even). Models JS `parseFloat` on a numeric string whose exact
value is `v`. -/
def fpRoundDec (v : DecValue) : Dyadic :=
  if v.mantissa = 0 then ⟨0, 0⟩
  else
    let a := v.mantissa.natAbs * (if 0 ≤ v.exp10 then 10 ^ v.exp10.toNat else 1)
    let b := if 0 ≤ v.exp10 then 1 else 10 ^ (-v.exp10).toNat
    let e := qlog2 a b
    let q := roundAt a b e
    if v.mantissa < 0 then ⟨-(q : ℤ), e - 52⟩ else ⟨(q : ℤ), e - 52⟩

/-- Round the exact dyadic value `M * 2^E` to the nearest binary64 double
(ties-to-even). -/
def fpRoundDy (M E : ℤ) : Dyadic :=
  if M = 0 then ⟨0, 0⟩
  else
    let A := M.natAbs
    let a := A * (if 0 ≤ E then 2 ^ E.toNat else 1)
    let b := if 0 ≤ E then 1 else 2 ^ (-E).toNat
    let e := (log2Fuel 4096 A : ℤ) + E
    let q := roundAt a b e
    if M < 0 then ⟨-(q : ℤ), e - 52⟩ else ⟨(q : ℤ), e - 52⟩

/-- Binary64 multiplication: round the exact product of two doubles. -/
def fpMul (x y : Dyadic) : Dyadic := fpRoundDy (x.m * y.m) (x.e + y.e)

/-- `Math.floor` on a double, as an exact integer (`Int.fdiv` is floor
division). -/
def Dyadic.floorInt (x : Dyadic) : ℤ :=
  if 0 ≤ x.e then x.m * 2 ^ x.e.toNat else x.m.fdiv (2 ^ (-x.e).toNat)

/-- `Math.pow(10, d)` for the registry's decimal counts (exact for
`d ≤ 22`, which covers every registered token). -/
def jsPow10 (d : ℕ) : Dyadic := fpRoundDec ⟨1, (d : ℤ)⟩

/-! ## Registry (`src/lib/tokens.ts`) -/

/-- Token entry of the registry (display-only fields `name`, `icon`,
`coingeckoId` omitted). -/
structure TokenInfo where
  symbol : String
  decimals : ℕ
  address : String
deriving DecidableEq, Repr

/-- Chain entry of the registry (display-only fields `nativeCurrency`,
`rpcUrls`, `blockExplorerUrls` omitted). -/
structure ChainInfo where
  id : ℕ
  gasyardId : ℕ
  name : String
  gatewayContract : String
  tokens : List TokenInfo
deriving DecidableEq, Repr

/-- The `SUPPORTED_CHAINS` table of `src/lib/tokens.ts`. -/
def SUPPORTED_CHAINS : List ChainInfo := [
  ⟨1, 1, "Ethereum", "0x6a2A5B7D0434CC5b77e304bc9D68C20Dee805152",
    [⟨"USDC", 6, "0xa0b86991c6218b36c1d19d4a2e9eb0ce3606eb48"⟩,
     ⟨"USDT", 6, "0xdAC17F958D2ee523a2206206994597C13D831ec7"⟩]⟩,
  ⟨8453, 2, "Base", "0x6a2A5B7D0434CC5b77e304bc9D68C20Dee805152",
    [⟨"USDC", 6, "0x833589fCD6eDb6E08f4c7C32D4f71b54bdA02913"⟩]⟩,
  ⟨56, 3, "BNB Chain", "0x6a2A5B7D0434CC5b77e304bc9D68C20Dee805152",
    [⟨"BSC-USD", 18, "0x55d398326f99059fF775485246999027B3197955"⟩]⟩,
  ⟨42161, 4, "Arbitrum", "0x6a2A5B7D0434CC5b77e304bc9D68C20Dee805152",
    [⟨"USDC", 6, "0xaf88d065e77c8cC2239327C5EDb3A432268e5831"⟩]⟩,
  ⟨42162, 5, "Hyperliquid", "0x6a2A5B7D0434CC5b77e304bc9D68C20Dee805152",
    [⟨"USDC", 6, "0xaf88d065e77c8cC2239327C5EDb3A432268e5831"⟩]⟩,
  ⟨30732, 6, "Movement", "Native Integration",
    [⟨"USDC", 6, "0x176211869cA2b568f2A7D4EE941E073a821EE1ff"⟩,
     ⟨"USDT", 6, "0x176211869cA2b568f2A7D4EE941E073a821EE1ff"⟩]⟩,
  ⟨1329, 7, "Solana", "Native Integration",
    [⟨"USDC", 6, "EPjFWdd5AufqSSqeM2qN1xzybapC8G4wEGGkZwyTDt1v"⟩,
     ⟨"USDT", 6, "Es9vMFrzaCERmJfrF4H2FYD4KCoNkY11McCe8BenwNYB"⟩]⟩,
  ⟨1330, 9, "Sei", "0x852512A601EB3Bb0973f35b1c1d77966F0EDe676",
    [⟨"USDC", 6, "0x176211869cA2b568f2A7D4EE941E073a821EE1ff"⟩]⟩,
  ⟨137, 10, "Polygon", "0x57B74794abE88E9Ce04A927a79A56504D289A818",
    [⟨"USDC", 6, "0x3c499c542cEF5E3811e1192ce70d8cC03d5c3359"⟩]⟩]

/-- `getChainInfo` of `src/lib/tokens.ts`. -/
def getChainInfo (chainId : ℕ) : Option ChainInfo :=
  SUPPORTED_CHAINS.find? (fun c => c.id == chainId)

/-- `getChainInfoByGasyardId` of `src/lib/tokens.ts`. -/
def getChainInfoByGasyardId (gasyardId : ℕ) : Option ChainInfo :=
  SUPPORTED_CHAINS.find? (fun c => c.gasyardId == gasyardId)

/-- `getTokenInfo` of `src/lib/tokens.ts`. -/
def getTokenInfo (chainId : ℕ) (tokenSymbol : String) : Option TokenInfo :=
  match getChainInfo chainId with
  | none => none
  | some chain => chain.tokens.find? (fun t => t.symbol == tokenSymbol)

/-- Errors thrown by the token utilities (`throw new Error(...)` in the
source; interpolated message strings are carried structurally). -/
inductive JsError where
  | tokenNotFound (chainId : ℕ) (symbol : String)
  | chainNotSupported (chainId : ℕ)
  | chainRead (msg : String)
deriving DecidableEq, Repr

/-- `getGatewayAddress` of `src/lib/tokens.ts`: throws if the chain is not
registered, otherwise returns the chain's `gatewayContract` (which may be
the `"Native Integration"` sentinel). -/
def getGatewayAddress (chainId : ℕ) : Except JsError String :=
  match getChainInfo chainId with
  | none => .error (.chainNotSupported chainId)
  | some chain => .ok chain.gatewayContract

/-- Result record of `checkTokenApprovalNeeded`. -/
structure ApprovalCheck where
  needsApproval : Bool
  currentAllowance : ℤ
  requiredAmount : ℤ
deriving DecidableEq, Repr

/-- `checkTokenApprovalNeeded` of `src/lib/tokenUtils.ts`.

`amount` abstracts the `parseFloat` of the amount string: `none` when the
string is non-numeric (`NaN`), `some v` when it parses to exact decimal
value `v` (the double is then `fpRoundDec v`).  `allowance` is the outcome
of the on-chain `getTokenAllowance` read (an RPC call that can fail).
The returned `Bool` records whether that on-chain read was performed. -/
def checkTokenApprovalNeeded (chainId : ℕ) (tokenSymbol : String)
    (allowance : Except String ℤ) (amount : Option DecValue) :
    Except JsError (ApprovalCheck × Bool) :=
  match getTokenInfo chainId tokenSymbol with
  | none => .error (.tokenNotFound chainId tokenSymbol)
  | some tokenInfo =>
    match getGatewayAddress chainId with
    | .error e => .error e
    | .ok gatewayAddress =>
      if gatewayAddress = "Native Integration" then
        .ok (⟨false, 0, 0⟩, false)
      else
        match amount with
        | none => .ok (⟨false, 0, 0⟩, false)
        | some v =>
          let parsedAmount := fpRoundDec v
          if parsedAmount.m ≤ 0 then .ok (⟨false, 0, 0⟩, false)
          else
            let requiredAmount :=
              (fpMul parsedAmount (jsPow10 tokenInfo.decimals)).floorInt
            match allowance with
            | .error msg => .error (.chainRead msg)
            | .ok currentAllowance =>
              .ok (⟨decide (currentAllowance < requiredAmount),
                    currentAllowance, requiredAmount⟩, true)

/-- The exact mathematical `⌊value * 10^d⌋` for an exact decimal `value`
(the quantity the specification's round-down invariant refers to). -/
def exactFloorScaled (v : DecValue) (d : ℕ) : ℤ :=
  if 0 ≤ v.exp10 + d then v.mantissa * 10 ^ (v.exp10 + d).toNat
  else v.mantissa.fdiv (10 ^ (-(v.exp10 + (d : ℤ))).toNat)

/-! ## JS string primitives (structural, over the underlying char list) -/

/-- JS whitespace test (ASCII subset; the addresses and markers involved
here contain only ASCII). -/
def jsWhitespace (c : Char) : Bool :=
  c == ' ' || c == '\t' || c == '\n' || c == '\r'

/-- `String.prototype.trim`. -/
def jsTrim (s : String) : String :=
  ⟨((s.data.dropWhile jsWhitespace).reverse.dropWhile jsWhitespace).reverse⟩

/-- `String.prototype.startsWith`. -/
def jsStartsWith (s pre : String) : Bool := pre.data.isPrefixOf s.data

/-- `String.prototype.length` (code-unit count; all strings involved are
ASCII so this is the character count). -/
def jsLength (s : String) : ℕ := s.data.length

/-- Contiguous-sublist test for `String.prototype.includes`. -/
def listHasInfix : List Char → List Char → Bool
  | [], pat => pat.isEmpty
  | c :: rest, pat => pat.isPrefixOf (c :: rest) || listHasInfix rest pat

/-- `String.prototype.includes`. -/
def jsIncludes (s pat : String) : Bool := listHasInfix s.data pat.data

/-- ASCII lower-casing of one character (`String.prototype.toLowerCase`). -/
def lowerChar (c : Char) : Char :=
  if 'A' ≤ c ∧ c ≤ 'Z' then Char.ofNat (c.toNat + 32) else c

/-- ASCII upper-casing of one character (`String.prototype.toUpperCase`). -/
def upperChar (c : Char) : Char :=
  if 'a' ≤ c ∧ c ≤ 'z' then Char.ofNat (c.toNat - 32) else c

/-- `String.prototype.toLowerCase` (ASCII). -/
def jsToLower (s : String) : String := ⟨s.data.map lowerChar⟩

/-- `String.prototype.toUpperCase` (ASCII). -/
def jsToUpper (s : String) : String := ⟨s.data.map upperChar⟩

/-! ## Simplified bridge request handler (`/api/getSwapData` POST route) -/

/-- `CHAIN_ENUM_TO_ID` of the bridge API route: fixed table from the
receiver's preferred-chain enum to a chain id. -/
def CHAIN_ENUM_TO_ID (c : String) : Option ℕ :=
  if c = "ETHEREUM" then some 1
  else if c = "BASE" then some 8453
  else if c = "BNB" then some 56
  else if c = "ARBITRUM" then some 42161
  else if c = "HYPERLIQUID" then some 42162
  else if c = "MOVEMENT" then some 30732
  else if c = "SOLANA" then some 1329
  else if c = "SEI" then some 1330
  else if c = "POLYGON" then some 137
  else none

/-- `TOKEN_ENUM_TO_SYMBOL` of the bridge API route. -/
def TOKEN_ENUM_TO_SYMBOL (t : String) : Option String :=
  if t = "ETH" then some "ETH"
  else if t = "USDC" then some "USDC"
  else if t = "BSC_USD" then some "BSC-USD"
  else if t = "USDT" then some "USDT"
  else if t = "BNB" then some "BNB"
  else if t = "MOVE" then some "MOVE"
  else if t = "POL" then some "POL"
  else if t = "SEI" then some "SEI"
  else if t = "SOL" then some "SOL"
  else none

/-- The receiver's stored settlement preference record (fields consumed by
the bridge route; `preferredAddress` is nullable in the database). -/
structure Receiver where
  preferredChain : String
  preferredToken : String
  preferredAddress : Option String
deriving DecidableEq, Repr

/-- Error responses of the bridge route, one constructor per literal
message (interpolated values carried as payloads). -/
inductive ApiErrorMsg where
  | receiverNotFound
  | noPreferredAddress
  | addressTruncated
  | invalidSolanaAddress
  | invalidEvmAddress
  | sourceNetworkUnsupported (id : ℕ)
  | destinationNetworkUnsupported (id : Option ℕ)
  | sourceTokenNotFound (id : ℕ) (sym : String)
  | destinationTokenNotFound (id : Option ℕ) (sym : Option String)
  | apiKeyMissing
deriving DecidableEq, Repr

/-- The parameters handed to the external settlement SDK's `bridge` call.
`sourceTokenAmount` is the stringified double
`parseFloat(amount) * 10^decimals` (`none` = `"NaN"`). -/
structure BridgeParams where
  sourceNetwork : ℕ
  destinationNetwork : ℕ
  tokenOutAddress : String
  destinationAddress : String
  tokenInAddress : String
  sourceTokenAmount : Option Dyadic
  sourceAddress : Option String
deriving DecidableEq, Repr

/-- Outcome of the pre-SDK part of the bridge route: either an error
response (with HTTP status), or the flow reaches the external settlement
provider call with the given parameters. -/
inductive ApiResult where
  | err (status : ℕ) (msg : ApiErrorMsg)
  | sdkCall (params : BridgeParams)
deriving DecidableEq, Repr

/-- HTTP status of an error response, `none` if the SDK call was reached. -/
def ApiResult.errStatus : ApiResult → Option ℕ
  | .err s _ => some s
  | .sdkCall _ => none

/-- JS `getTokenInfo(chainId, tokenSymbol)` where either argument may be
`undefined` (an `undefined` chain id indexes to no chain; an `undefined`
symbol matches no token). -/
def jsGetTokenInfo (cid : Option ℕ) (tsym : Option String) : Option TokenInfo :=
  match cid, tsym with
  | some c, some t => getTokenInfo c t
  | _, _ => none

/-- `handleSimplifiedBridgeRequest` of the `getSwapData` route, up to the
external `sdk.bridge` call.  `receiver` is the database lookup result for
the requested FID; `hasApiKey` is whether `GASYARD_API_KEY` is configured;
`amount` abstracts the request's amount string as in
`checkTokenApprovalNeeded`. -/
def handleSimplifiedBridgeRequest (receiver : Option Receiver)
    (hasApiKey : Bool) (amount : Option DecValue) (sourceChainId : ℕ)
    (sourceTokenSymbol : String) (sourceAddress : Option String) : ApiResult :=
  match receiver with
  | none => .err 404 .receiverNotFound
  | some receiver =>
    match receiver.preferredAddress with
    | none => .err 400 .noPreferredAddress
    | some pa =>
      if pa = "" then .err 400 .noPreferredAddress
      else
        let destinationChainId := CHAIN_ENUM_TO_ID receiver.preferredChain
        let destinationTokenSymbol := TOKEN_ENUM_TO_SYMBOL receiver.preferredToken
        let destinationAddress := jsTrim pa
        if jsIncludes destinationAddress "..." then .err 400 .addressTruncated
        else
          let isSolanaDestination := destinationChainId == some 1329
          let isEthAddress :=
            jsStartsWith destinationAddress "0x" && jsLength destinationAddress == 42
          let isSolanaAddress :=
            !jsStartsWith destinationAddress "0x" && jsLength destinationAddress == 44
          if isSolanaDestination && !isSolanaAddress then
            .err 400 .invalidSolanaAddress
          else if !isSolanaDestination && !isEthAddress then
            .err 400 .invalidEvmAddress
          else
            match getChainInfo sourceChainId with
            | none => .err 400 (.sourceNetworkUnsupported sourceChainId)
            | some sourceChain =>
              match destinationChainId.bind getChainInfo with
              | none => .err 400 (.destinationNetworkUnsupported destinationChainId)
              | some destinationChain =>
                match getTokenInfo sourceChainId sourceTokenSymbol with
                | none => .err 400 (.sourceTokenNotFound sourceChainId sourceTokenSymbol)
                | some sourceToken =>
                  match jsGetTokenInfo destinationChainId destinationTokenSymbol with
                  | none =>
                    .err 400 (.destinationTokenNotFound destinationChainId destinationTokenSymbol)
                  | some destinationToken =>
                    let sourceTokenAmount :=
                      amount.map (fun v => fpMul (fpRoundDec v) (jsPow10 sourceToken.decimals))
                    if !hasApiKey then .err 500 .apiKeyMissing
                    else .sdkCall ⟨sourceChain.gasyardId, destinationChain.gasyardId,
                      destinationToken.address, destinationAddress, sourceToken.address,
                      sourceTokenAmount, sourceAddress⟩

/-! ## Quote resolution and bridge execution (`PayPopup.tsx`) -/

/-- A quote entry returned by the settlement provider's
`process-payment-quote` endpoint.  `tokenSymbol` may be absent and
`depositAmount` abstracts the numeric value as in
`checkTokenApprovalNeeded` (`none` = non-numeric). -/
structure Quote where
  blockchain : String
  tokenSymbol : Option String
  depositAmount : Option DecValue
deriving DecidableEq, Repr

/-- `mapBlockchainToChainId` of `PayPopup.tsx`: fixed lookup from the
provider's blockchain-name string to an internal chain id. -/
def mapBlockchainToChainId (blockchain : String) : Option ℕ :=
  let k := jsToLower blockchain
  if k = "ethereum" ∨ k = "mainnet" then some 1
  else if k = "base" then some 8453
  else if k = "arbitrum" then some 42161
  else if k = "bsc" ∨ k = "bnb" ∨ k = "bnb chain" then some 56
  else if k = "polygon" ∨ k = "matic" then some 137
  else none

/-- JS `x || dflt` for an optional string (`undefined` and `""` are falsy). -/
def jsOrString (x : Option String) (dflt : String) : String :=
  match x with
  | none => dflt
  | some s => if s = "" then dflt else s

/-- `fetchPaymentQuote` of `PayPopup.tsx`.  `resOk` is the HTTP success
flag of the provider call; `result` is the `data.result` array (`none`
when it is not an array). -/
def fetchPaymentQuote (resOk : Bool) (result : Option (List Quote)) :
    Except String (Quote × ℕ) :=
  if !resOk then .error "Failed to fetch payment quote"
  else
    match (match result with | some l => l.head? | none => none) with
    | none => .error "No quote returned"
    | some quote =>
      match mapBlockchainToChainId quote.blockchain with
      | none => .error "Unsupported blockchain in quote"
      | some targetChainId => .ok (quote, targetChainId)

/-- The `{to, data}` transaction returned by the bridge-build API
(fields renamed `toAddress`/`dataHex` since `to` is reserved in Lean). -/
structure BridgeTx where
  toAddress : String
  dataHex : String
deriving DecidableEq, Repr

/-- Environment (oracle) for one run of `executeBridgeTransaction`: the
outcomes of every external interaction, in program order. -/
structure BridgeEnv where
  /-- the `selectedRecipient && amount && isConnected && address && chainId`
  guard (plus the `publicClient` guard) -/
  hasRecipient : Bool
  /-- HTTP success of the quote call -/
  fetchOk : Bool
  /-- the quote call's `data.result` -/
  result : Option (List Quote)
  /-- outcome of `switchChainAsync`, when invoked -/
  switchChain : Except String Unit
  /-- outcome of the on-chain allowance read inside the approval check -/
  allowance : Except String ℤ
  /-- outcome of `sendTransactionAsync` for the approval (user may reject) -/
  sendApproval : Except String String
  /-- outcome of `waitForTransactionReceipt` for the approval -/
  waitReceiptOk : Bool
  /-- the bridge-build API's `data.success` -/
  apiSuccess : Bool
  /-- the bridge-build API's `data.error` -/
  apiError : Option String
  /-- the bridge-build API's `data.bridgeTransaction?.transaction` -/
  apiTx : Option BridgeTx
  /-- outcome of `estimateGas` -/
  gasEstimate : Except String Unit
deriving Repr

/-- Observable outcome of one `executeBridgeTransaction` run. -/
structure BridgeTrace where
  /-- the `fetch("/api/getSwapData")` call was made -/
  bridgeApiCalled : Bool
  /-- an approval transaction was signed and submitted -/
  approvalSubmitted : Bool
  /-- `sendTransaction` was issued for the settlement transaction -/
  settlementSubmitted : Bool
  /-- final `error` state -/
  error : Option String
  /-- final `isProcessing` state -/
  isProcessing : Bool
deriving DecidableEq, Repr

/-- The tail of `executeBridgeTransaction` from the bridge-build API call
onward (reached unconditionally once routing and the chain switch have
succeeded). -/
def bridgeApiPhase (env : BridgeEnv) (approvalSubmitted : Bool) : BridgeTrace :=
  if !env.apiSuccess then
    ⟨true, approvalSubmitted, false,
      some (jsOrString env.apiError "Failed to generate bridge transaction"), false⟩
  else
    match env.apiTx with
    | none => ⟨true, approvalSubmitted, false,
        some "Invalid bridge transaction data received from API", false⟩
    | some tx =>
      if tx.toAddress = "" ∨ tx.dataHex = "" then
        ⟨true, approvalSubmitted, false,
          some "Invalid bridge transaction data received from API", false⟩
      else if jsStartsWith tx.toAddress "0x" = false ∨ jsLength tx.toAddress ≠ 42 then
        ⟨true, approvalSubmitted, false,
          some "Invalid transaction destination address", false⟩
      else if jsStartsWith tx.dataHex "0x" = false then
        ⟨true, approvalSubmitted, false,
          some "Invalid transaction data format", false⟩
      else if jsLength tx.dataHex < 10 then
        ⟨true, approvalSubmitted, false,
          some "Transaction data too short", false⟩
      else
        match env.gasEstimate with
        | .error msg => ⟨true, approvalSubmitted, false,
            some ("Gas estimation failed: " ++ msg), false⟩
        | .ok _ => ⟨true, approvalSubmitted, true, none, true⟩

/-- The approval phase of `executeBridgeTransaction` (the inner
`try { ... } catch (approvalErr)` block): returns whether an approval
transaction was signed and submitted.  Every failure inside this block —
an allowance-check error, a signing rejection, or a receipt-wait error —
is caught (or merely warned about) and the flow continues. -/
def approvalPhase (env : BridgeEnv) (targetChainId : ℕ)
    (tokenFromQuote : String) (depositAmount : Option DecValue) : Bool :=
  match checkTokenApprovalNeeded targetChainId tokenFromQuote
      env.allowance depositAmount with
  | .error _ => false
  | .ok (approvalCheck, _) =>
    if approvalCheck.needsApproval then
      match getTokenInfo targetChainId tokenFromQuote,
          getGatewayAddress targetChainId with
      | some _, .ok gatewayAddress =>
        if gatewayAddress ≠ "Native Integration" then
          match env.sendApproval with
          | .ok _ => true
          | .error _ => false
        else false
      | _, _ => false
    else false

/-- `executeBridgeTransaction` of `PayPopup.tsx`: quote fetch, optional
chain switch, the approval phase (whose failures are swallowed), then the
bridge-build API call and the settlement submission.  Errors outside the
approval phase land in the outer catch, which records the message and
stops processing. -/
def executeBridgeTransaction (env : BridgeEnv) (chainId : ℕ)
    (selectedToken : String) : BridgeTrace :=
  if !env.hasRecipient then
    ⟨false, false, false,
      some "Please select a recipient and ensure wallet is connected", false⟩
  else
    match fetchPaymentQuote env.fetchOk env.result with
    | .error msg => ⟨false, false, false, some msg, false⟩
    | .ok (quote, targetChainId) =>
      match (if chainId ≠ targetChainId then env.switchChain else .ok ()) with
      | .error msg => ⟨false, false, false, some msg, false⟩
      | .ok _ =>
        let tokenFromQuote := jsToUpper (jsOrString quote.tokenSymbol selectedToken)
        bridgeApiPhase env
          (approvalPhase env targetChainId tokenFromQuote quote.depositAmount)

/-- Concrete environment whose quote routes back to the payment's own
chain and token (Base / USDC), with an allowance already large enough. -/
def envDirectRoute : BridgeEnv :=
  ⟨true, true, some [⟨"base", some "USDC", some ⟨1, 0⟩⟩], .ok (),
    .ok (10 ^ 12), .ok "0xapprovalhash", true, true, none,
    some ⟨"0x6a2A5B7D0434CC5b77e304bc9D68C20Dee805152", "0x1234567890"⟩,
    .ok ()⟩

/-- Concrete environment in which the approval check itself fails (the
on-chain allowance read errors) while everything else succeeds. -/
def envApprovalCheckFails : BridgeEnv :=
  ⟨true, true, some [⟨"base", some "USDC", some ⟨1, 0⟩⟩], .ok (),
    .error "allowance read failed", .ok "0xapprovalhash", true, true, none,
    some ⟨"0x6a2A5B7D0434CC5b77e304bc9D68C20Dee805152", "0x1234567890"⟩,
    .ok ()⟩

/-! ## Confirmation handling (`App.tsx`, `PayPopup.tsx`) -/

/-- The `paymentStep` state of `App.tsx`. -/
inductive PaymentStep where
  | approval
  | payment
deriving DecidableEq, Repr

/-- The attempt-scoped state read and written by the App confirmation
effect. -/
structure AppState where
  /-- `currentPayingRequest` (its `id` field is what the effect uses) -/
  currentPayingRequest : Option String
  paymentStep : Option PaymentStep
  payingRequestId : Option String
  /-- `lastProcessedHashRef.current` -/
  lastProcessedHash : Option String
deriving DecidableEq, Repr

/-- Side effects issued by the App confirmation effect. -/
inductive AppEffect where
  | updateRequestStatus (requestId : String) (newStatus : String)
  | executePaymentTransaction
deriving DecidableEq, Repr

/-- The transaction-confirmation effect of `App.tsx`: guarded by
`lastProcessedHashRef`, it advances an approval confirmation to the
payment step, and on a payment confirmation updates the request to
`ACCEPTED` and resets all attempt-scoped state. -/
def onTransactionConfirmed (s : AppState) (isTransactionConfirmed : Bool)
    (transactionHash : Option String) : AppState × List AppEffect :=
  match isTransactionConfirmed, s.currentPayingRequest, s.paymentStep with
  | true, some requestId, some step =>
    if s.lastProcessedHash = transactionHash then (s, [])
    else
      let s1 := { s with lastProcessedHash := transactionHash }
      match step with
      | .approval =>
        ({ s1 with paymentStep := some .payment },
          [.executePaymentTransaction])
      | .payment =>
        ((⟨none, none, none, none⟩ : AppState),
          [.updateRequestStatus requestId "ACCEPTED"])
  | _, _, _ => (s, [])

/-- The state read and written by the PayPopup bridge-confirmation
effect. -/
structure PayPopupState where
  /-- `processedTransactions.current` (a set of hashes) -/
  processedTransactions : List String
  isBridgeStep : Bool
  isProcessing : Bool
deriving DecidableEq, Repr

/-- The completion side effect of the PayPopup bridge-confirmation effect
(reset approval state, clear recipient and search, reset amount, close the
popup). -/
inductive PayPopupEffect where
  | resetAndClose
deriving DecidableEq, Repr

/-- The bridge-confirmation effect of `PayPopup.tsx`: guarded by the
`processedTransactions` set; a first confirmation of a bridge transaction
runs the completion side effects once (and `resetApproval` clears the
processed set). -/
def payPopupOnConfirmed (s : PayPopupState) (isTransactionConfirmed : Bool)
    (transactionHash : Option String) : PayPopupState × List PayPopupEffect :=
  match isTransactionConfirmed, transactionHash with
  | true, some h =>
    if h ∈ s.processedTransactions then (s, [])
    else
      let s1 := { s with processedTransactions := h :: s.processedTransactions }
      if s1.isBridgeStep then
        (⟨[], false, false⟩, [.resetAndClose])
      else (s1, [])
  | _, _ => (s, [])

/-! ## Fund-request status update (`/api/fund-requests/[id]` PATCH) -/

/-- The `FundRequestStatus` enum. -/
inductive RequestStatus where
  | PENDING
  | ACCEPTED
  | REJECTED
  | EXPIRED
deriving DecidableEq, Repr

/-- The `validStatuses` membership test of the PATCH handler, returning
the enum value the string denotes. -/
def parseStatus (s : String) : Option RequestStatus :=
  if s = "PENDING" then some .PENDING
  else if s = "ACCEPTED" then some .ACCEPTED
  else if s = "REJECTED" then some .REJECTED
  else if s = "EXPIRED" then some .EXPIRED
  else none

/-- Outcome of the PATCH handler. -/
inductive PatchResult where
  /-- 400: status string not in `validStatuses` -/
  | badRequest
  /-- 500: the database update threw (e.g. no record with that id) -/
  | serverError
  /-- 200: record updated; carries the stored (new) status -/
  | ok (updated : RequestStatus)
deriving DecidableEq, Repr

/-- The PATCH handler of `/api/fund-requests/[id]`: validates the status
string against the four enum values and then lets `prisma.fundRequest.update`
overwrite the stored status unconditionally — the current status is never
read or compared. -/
def patchFundRequest (current : Option RequestStatus) (status : String) :
    PatchResult :=
  match parseStatus status with
  | none => .badRequest
  | some newStatus =>
    match current with
    | none => .serverError
    | some _ => .ok newStatus

/-! ## Theorems: allowance checker (claims C2, C3, C4) -/

/-- A double parsed from a non-positive exact value is non-positive. -/
theorem fpRoundDec_m_nonpos (v : DecValue) (h : v.mantissa ≤ 0) :
    (fpRoundDec v).m ≤ 0 := by
  unfold fpRoundDec
  by_cases h0 : v.mantissa = 0
  · simp [h0]
  · have hneg : v.mantissa < 0 := lt_of_le_of_ne h h0
    simp only [h0, if_false, if_pos hneg]
    exact neg_nonpos.mpr (Int.natCast_nonneg _)

/-- A token registered on a chain means the chain itself is registered. -/
theorem getChainInfo_isSome_of_getTokenInfo (chainId : ℕ) (sym : String)
    (h : (getTokenInfo chainId sym).isSome = true) :
    ∃ c, getChainInfo chainId = some c := by
  unfold getTokenInfo at h
  cases hc : getChainInfo chainId with
  | none => rw [hc] at h; simp at h
  | some c => exact ⟨c, rfl⟩

/-- Claim C2: for every amount that is non-numeric or `≤ 0`,
`checkTokenApprovalNeeded` on a (chain, token) pair registered in the
registry returns `needsApproval = false, requiredAmount = 0` without
raising an error and without performing any on-chain allowance read
(the result is independent of the allowance oracle and the read flag is
`false`). -/
theorem checkApprovalNeeded_degenerate_amount_noop
    (chainId : ℕ) (sym : String) (allowance : Except String ℤ)
    (amount : Option DecValue)
    (hreg : (getTokenInfo chainId sym).isSome = true)
    (hdeg : amount = none ∨ ∃ v, amount = some v ∧ v.mantissa ≤ 0) :
    checkTokenApprovalNeeded chainId sym allowance amount =
      .ok (⟨false, 0, 0⟩, false) := by
  obtain ⟨tok, htok⟩ := Option.isSome_iff_exists.mp hreg
  obtain ⟨c, hc⟩ := getChainInfo_isSome_of_getTokenInfo chainId sym hreg
  unfold checkTokenApprovalNeeded getGatewayAddress
  rw [htok, hc]
  by_cases hg : c.gatewayContract = "Native Integration"
  · simp [hg]
  · simp only [if_neg hg]
    rcases hdeg with h | ⟨v, hv, hvle⟩
    · subst h; rfl
    · subst hv
      simp only [if_pos (fpRoundDec_m_nonpos v hvle)]

/-- Witness for claim C2: on Base/USDC, a negative amount (`-0.5`) yields
the no-op result even when the allowance read would have failed. -/
theorem checkApprovalNeeded_degenerate_amount_noop_witness :
    checkTokenApprovalNeeded 8453 "USDC" (.error "rpc down")
      (some ⟨-5, -1⟩) = .ok (⟨false, 0, 0⟩, false) :=
  checkApprovalNeeded_degenerate_amount_noop 8453 "USDC" (.error "rpc down")
    (some ⟨-5, -1⟩) (by rfl) (Or.inr ⟨⟨-5, -1⟩, rfl, by norm_num⟩)

/-- Claim C3 (counterexample): on BNB Chain's `BSC-USD` (18 decimals, a
registered pair whose gateway is not the native-integration sentinel), the
positive numeric amount `1.000000000000000001` produces
`requiredAmount = 10^18`, while the exact mathematical floor of
`amount * 10^18` is `10^18 + 1` — the code's double arithmetic loses the
final digit, so `requiredAmount` is not `floor(humanAmount * 10^decimals)`
for every positive numeric amount. -/
theorem requiredAmount_not_exact_floor_counterexample :
    getGatewayAddress 56 = .ok "0x6a2A5B7D0434CC5b77e304bc9D68C20Dee805152" ∧
    checkTokenApprovalNeeded 56 "BSC-USD" (.ok 0)
      (some ⟨10 ^ 18 + 1, -18⟩) = .ok (⟨true, 0, 10 ^ 18⟩, true) ∧
    exactFloorScaled ⟨10 ^ 18 + 1, -18⟩ 18 = 10 ^ 18 + 1 ∧
    (10 ^ 18 : ℤ) ≠ 10 ^ 18 + 1 := by
  refine ⟨rfl, rfl, rfl, by norm_num⟩

/-- Claim C3 (amended): `requiredAmount` is the round-down of the IEEE-754
double product `parseFloat(humanAmount) * 10^decimals`; on the
specification's own test vector — amount `1.0000005` with 6 decimals on
Base/USDC — this yields `1000000`, not `1000001` (round-down, not
round-to-nearest), shown on both sides of the allowance comparison. -/
theorem requiredAmount_rounds_down_spec_example :
    checkTokenApprovalNeeded 8453 "USDC" (.ok 999999)
      (some ⟨10000005, -7⟩) = .ok (⟨true, 999999, 1000000⟩, true) ∧
    checkTokenApprovalNeeded 8453 "USDC" (.ok 1000000)
      (some ⟨10000005, -7⟩) = .ok (⟨false, 1000000, 1000000⟩, true) :=
  ⟨rfl, rfl⟩

/-- Claim C4: for every chain whose registered gateway is the
`"Native Integration"` sentinel and every token registered on it,
`checkTokenApprovalNeeded` returns `needsApproval = false` regardless of
the amount and of the on-chain allowance, and performs no allowance read. -/
theorem checkApprovalNeeded_native_integration
    (chainId : ℕ) (sym : String) (allowance : Except String ℤ)
    (amount : Option DecValue)
    (hreg : (getTokenInfo chainId sym).isSome = true)
    (hnative : getGatewayAddress chainId = .ok "Native Integration") :
    checkTokenApprovalNeeded chainId sym allowance amount =
      .ok (⟨false, 0, 0⟩, false) := by
  obtain ⟨tok, htok⟩ := Option.isSome_iff_exists.mp hreg
  unfold checkTokenApprovalNeeded
  rw [htok, hnative]
  simp

/-- Witness for claim C4: on Solana (native integration), a large positive
amount with a failing allowance oracle still short-circuits to
`needsApproval = false` with no read. -/
theorem checkApprovalNeeded_native_integration_witness :
    checkTokenApprovalNeeded 1329 "USDC" (.error "rpc down")
      (some ⟨5000000, 0⟩) = .ok (⟨false, 0, 0⟩, false) :=
  checkApprovalNeeded_native_integration 1329 "USDC" (.error "rpc down")
    (some ⟨5000000, 0⟩) (by rfl) (by rfl)

/-! ## Theorems: bridge route validation (claims C5, C6) -/

/-- Claim C5: the bridge request handler rejects, with a 400 validation
error and before the external settlement provider is ever called, any
receiver `preferredAddress` whose trimmed form contains the ellipsis
marker `"..."` — regardless of every other field of the request. -/
theorem bridgeRequest_rejects_truncated_address
    (r : Receiver) (hasApiKey : Bool) (amount : Option DecValue)
    (sourceChainId : ℕ) (sourceTokenSymbol : String)
    (sourceAddress : Option String) (pa : String)
    (hpa : r.preferredAddress = some pa)
    (hell : jsIncludes (jsTrim pa) "..." = true) :
    handleSimplifiedBridgeRequest (some r) hasApiKey amount sourceChainId
      sourceTokenSymbol sourceAddress = .err 400 .addressTruncated := by
  have hne : pa ≠ "" := by
    intro h
    rw [h] at hell
    exact absurd hell (by decide)
  unfold handleSimplifiedBridgeRequest
  simp only [hpa, if_neg hne, hell, if_true]

/-- Witness for claim C5 (the specification's scenario D): a stored
address `"0x524...5FB2"` is rejected as truncated. -/
theorem bridgeRequest_rejects_truncated_address_witness :
    handleSimplifiedBridgeRequest
      (some ⟨"BASE", "USDC", some "0x524...5FB2"⟩) true (some ⟨1, 0⟩)
      8453 "USDC" none = .err 400 .addressTruncated :=
  bridgeRequest_rejects_truncated_address ⟨"BASE", "USDC", some "0x524...5FB2"⟩
    true (some ⟨1, 0⟩) 8453 "USDC" none "0x524...5FB2" rfl (by decide)

/-- Claim C6: with the receiver's preference resolving to an account-model
(EVM) destination network, a 44-character public-key-style (non-`0x`)
stored address is rejected with a 400 validation error; and with the
preference resolving to the public-key-model (Solana) network, a
42-character `0x`-prefixed account-style address is rejected with a 400
validation error — in both cases regardless of all other request fields. -/
theorem bridgeRequest_rejects_mismatched_address_format
    (r : Receiver) (hasApiKey : Bool) (amount : Option DecValue)
    (sourceChainId : ℕ) (sourceTokenSymbol : String)
    (sourceAddress : Option String) (pa : String)
    (hpa : r.preferredAddress = some pa) :
    ((∃ cid, CHAIN_ENUM_TO_ID r.preferredChain = some cid ∧ cid ≠ 1329) →
      jsLength (jsTrim pa) = 44 → jsStartsWith (jsTrim pa) "0x" = false →
      (handleSimplifiedBridgeRequest (some r) hasApiKey amount sourceChainId
        sourceTokenSymbol sourceAddress).errStatus = some 400) ∧
    (CHAIN_ENUM_TO_ID r.preferredChain = some 1329 →
      jsLength (jsTrim pa) = 42 → jsStartsWith (jsTrim pa) "0x" = true →
      (handleSimplifiedBridgeRequest (some r) hasApiKey amount sourceChainId
        sourceTokenSymbol sourceAddress).errStatus = some 400) := by
  constructor
  · rintro ⟨cid, hcid, hcidne⟩ hlen hpre
    have hne : pa ≠ "" := by
      intro h
      rw [h] at hlen
      exact absurd hlen (by decide)
    unfold handleSimplifiedBridgeRequest
    simp only [hpa, if_neg hne]
    by_cases htr : jsIncludes (jsTrim pa) "..." = true
    · simp only [htr, if_true]
      rfl
    · have htr' : jsIncludes (jsTrim pa) "..." = false :=
        Bool.not_eq_true _ ▸ Bool.eq_false_iff.mpr htr
      have hsol : (CHAIN_ENUM_TO_ID r.preferredChain == some 1329) = false := by
        rw [hcid, beq_eq_false_iff_ne]
        simp [hcidne]
      have heth : (jsStartsWith (jsTrim pa) "0x" &&
          jsLength (jsTrim pa) == 42) = false := by
        simp [hpre]
      simp only [htr', hsol, heth, hlen, hpre, Bool.false_eq_true, if_false,
        Bool.false_and, Bool.not_false, Bool.true_and, if_true]
      rfl
  · intro hcid hlen hpre
    have hne : pa ≠ "" := by
      intro h
      rw [h] at hlen
      exact absurd hlen (by decide)
    unfold handleSimplifiedBridgeRequest
    simp only [hpa, if_neg hne]
    by_cases htr : jsIncludes (jsTrim pa) "..." = true
    · simp only [htr, if_true]
      rfl
    · have htr' : jsIncludes (jsTrim pa) "..." = false :=
        Bool.not_eq_true _ ▸ Bool.eq_false_iff.mpr htr
      have hsol : (CHAIN_ENUM_TO_ID r.preferredChain == some 1329) = true := by
        rw [hcid]
        rfl
      have hsoladdr : (!jsStartsWith (jsTrim pa) "0x" &&
          jsLength (jsTrim pa) == 44) = false := by
        simp [hpre]
      simp only [htr', hsol, hsoladdr, Bool.false_eq_true, if_false,
        Bool.not_false, Bool.true_and, if_true]
      rfl

/-- Witness for claim C6: an EVM-preference receiver with a 44-character
Solana-style address, and a Solana-preference receiver with a 42-character
`0x` address, are both rejected with status 400. -/
theorem bridgeRequest_rejects_mismatched_address_format_witness :
    (handleSimplifiedBridgeRequest
      (some ⟨"BASE", "USDC", some "EPjFWdd5AufqSSqeM2qN1xzybapC8G4wEGGkZwyTDt1v"⟩)
      true (some ⟨1, 0⟩) 8453 "USDC" none).errStatus = some 400 ∧
    (handleSimplifiedBridgeRequest
      (some ⟨"SOLANA", "USDC", some "0x833589fCD6eDb6E08f4c7C32D4f71b54bdA02913"⟩)
      true (some ⟨1, 0⟩) 8453 "USDC" none).errStatus = some 400 :=
  ⟨(bridgeRequest_rejects_mismatched_address_format
      ⟨"BASE", "USDC", some "EPjFWdd5AufqSSqeM2qN1xzybapC8G4wEGGkZwyTDt1v"⟩
      true (some ⟨1, 0⟩) 8453 "USDC" none
      "EPjFWdd5AufqSSqeM2qN1xzybapC8G4wEGGkZwyTDt1v" rfl).1
      ⟨8453, rfl, by norm_num⟩ (by decide) (by decide),
   (bridgeRequest_rejects_mismatched_address_format
      ⟨"SOLANA", "USDC", some "0x833589fCD6eDb6E08f4c7C32D4f71b54bdA02913"⟩
      true (some ⟨1, 0⟩) 8453 "USDC" none
      "0x833589fCD6eDb6E08f4c7C32D4f71b54bdA02913" rfl).2
      rfl (by decide) (by decide)⟩

/-! ## Theorems: quote resolution and bridge flow (claims C7, C8, C9) -/

/-- Claim C7: route resolution maps the provider's blockchain-name string
through the fixed lookup table only — for every name with no mapping the
quote fetch fails with the unsupported-route error, and every successful
mapping lands on one of the five fixed network ids (no default network is
ever guessed). -/
theorem resolveRoute_fails_closed (q : Quote) (qs : List Quote)
    (hmap : mapBlockchainToChainId q.blockchain = none) :
    fetchPaymentQuote true (some (q :: qs)) =
      .error "Unsupported blockchain in quote" ∧
    (∀ s c, mapBlockchainToChainId s = some c →
      c = 1 ∨ c = 8453 ∨ c = 42161 ∨ c = 56 ∨ c = 137) := by
  constructor
  · unfold fetchPaymentQuote
    simp [hmap]
  · intro s c h
    unfold mapBlockchainToChainId at h
    dsimp only at h
    split_ifs at h <;> simp_all

/-- Witness for claim C7: the provider name `"solana"` has no mapping and
the quote fetch fails closed on it. -/
theorem resolveRoute_fails_closed_witness :
    mapBlockchainToChainId "solana" = none ∧
    fetchPaymentQuote true (some [⟨"solana", some "USDC", some ⟨1, 0⟩⟩]) =
      .error "Unsupported blockchain in quote" :=
  ⟨rfl, (resolveRoute_fails_closed ⟨"solana", some "USDC", some ⟨1, 0⟩⟩ []
    rfl).1⟩

/-- The bridge-build API call is made in every outcome of the post-switch
phase. -/
theorem bridgeApiPhase_called (env : BridgeEnv) (a : Bool) :
    (bridgeApiPhase env a).bridgeApiCalled = true := by
  obtain ⟨rec, fok, res, sw, alw, sa, w, asucc, aerr, atx, gas⟩ := env
  unfold bridgeApiPhase
  cases asucc
  · rfl
  · cases atx with
    | none => rfl
    | some tx =>
      simp only
      split_ifs <;> try rfl
      cases gas <;> rfl

/-- A failed bridge-build API response surfaces its error and submits no
settlement. -/
theorem bridgeApiPhase_apiFail (env : BridgeEnv) (a : Bool)
    (h : env.apiSuccess = false) :
    bridgeApiPhase env a =
      ⟨true, a, false,
        some (jsOrString env.apiError "Failed to generate bridge transaction"),
        false⟩ := by
  unfold bridgeApiPhase
  simp [h]

/-- A successful bridge-build response without a transaction payload
surfaces the invalid-data error and submits no settlement. -/
theorem bridgeApiPhase_noTx (env : BridgeEnv) (a : Bool)
    (h1 : env.apiSuccess = true) (h2 : env.apiTx = none) :
    bridgeApiPhase env a =
      ⟨true, a, false,
        some "Invalid bridge transaction data received from API", false⟩ := by
  unfold bridgeApiPhase
  simp [h1, h2]

/-- A transaction payload with an empty `to` or empty `data` surfaces the
invalid-data error and submits no settlement. -/
theorem bridgeApiPhase_emptyTx (env : BridgeEnv) (a : Bool) (tx : BridgeTx)
    (h1 : env.apiSuccess = true) (h2 : env.apiTx = some tx)
    (h3 : tx.toAddress = "" ∨ tx.dataHex = "") :
    bridgeApiPhase env a =
      ⟨true, a, false,
        some "Invalid bridge transaction data received from API", false⟩ := by
  unfold bridgeApiPhase
  simp only [h1, h2, Bool.not_true, Bool.false_eq_true, if_false]
  rw [if_pos h3]

/-- A malformed destination address in the bridge-build response surfaces
its validation error and submits no settlement. -/
theorem bridgeApiPhase_badTo (env : BridgeEnv) (a : Bool) (tx : BridgeTx)
    (h1 : env.apiSuccess = true) (h2 : env.apiTx = some tx)
    (h3 : ¬(tx.toAddress = "" ∨ tx.dataHex = ""))
    (h4 : jsStartsWith tx.toAddress "0x" = false ∨ jsLength tx.toAddress ≠ 42) :
    bridgeApiPhase env a =
      ⟨true, a, false, some "Invalid transaction destination address",
        false⟩ := by
  unfold bridgeApiPhase
  simp only [h1, h2, Bool.not_true, Bool.false_eq_true, if_false]
  rw [if_neg h3, if_pos h4]

/-- Transaction data without the `0x` prefix surfaces its validation error
and submits no settlement. -/
theorem bridgeApiPhase_badData (env : BridgeEnv) (a : Bool) (tx : BridgeTx)
    (h1 : env.apiSuccess = true) (h2 : env.apiTx = some tx)
    (h3 : ¬(tx.toAddress = "" ∨ tx.dataHex = ""))
    (h4 : ¬(jsStartsWith tx.toAddress "0x" = false ∨ jsLength tx.toAddress ≠ 42))
    (h5 : jsStartsWith tx.dataHex "0x" = false) :
    bridgeApiPhase env a =
      ⟨true, a, false, some "Invalid transaction data format", false⟩ := by
  unfold bridgeApiPhase
  simp only [h1, h2, Bool.not_true, Bool.false_eq_true, if_false]
  rw [if_neg h3, if_neg h4, if_pos h5]

/-- Implausibly short transaction data surfaces its validation error and
submits no settlement. -/
theorem bridgeApiPhase_shortData (env : BridgeEnv) (a : Bool) (tx : BridgeTx)
    (h1 : env.apiSuccess = true) (h2 : env.apiTx = some tx)
    (h3 : ¬(tx.toAddress = "" ∨ tx.dataHex = ""))
    (h4 : ¬(jsStartsWith tx.toAddress "0x" = false ∨ jsLength tx.toAddress ≠ 42))
    (h5 : jsStartsWith tx.dataHex "0x" = true)
    (h6 : jsLength tx.dataHex < 10) :
    bridgeApiPhase env a =
      ⟨true, a, false, some "Transaction data too short", false⟩ := by
  unfold bridgeApiPhase
  have h5' : ¬(jsStartsWith tx.dataHex "0x" = false) := by simp [h5]
  simp only [h1, h2, Bool.not_true, Bool.false_eq_true, if_false]
  rw [if_neg h3, if_neg h4, if_neg h5', if_pos h6]

/-- A failed gas estimation surfaces its error and submits no
settlement. -/
theorem bridgeApiPhase_gasFail (env : BridgeEnv) (a : Bool) (tx : BridgeTx)
    (g : String)
    (h1 : env.apiSuccess = true) (h2 : env.apiTx = some tx)
    (h3 : ¬(tx.toAddress = "" ∨ tx.dataHex = ""))
    (h4 : ¬(jsStartsWith tx.toAddress "0x" = false ∨ jsLength tx.toAddress ≠ 42))
    (h5 : jsStartsWith tx.dataHex "0x" = true)
    (h6 : ¬jsLength tx.dataHex < 10)
    (h7 : env.gasEstimate = .error g) :
    bridgeApiPhase env a =
      ⟨true, a, false, some ("Gas estimation failed: " ++ g), false⟩ := by
  unfold bridgeApiPhase
  have h5' : ¬(jsStartsWith tx.dataHex "0x" = false) := by simp [h5]
  simp only [h1, h2, Bool.not_true, Bool.false_eq_true, if_false]
  rw [if_neg h3, if_neg h4, if_neg h5', if_neg h6, h7]

/-- A fully valid bridge-build response leads to exactly one settlement
submission with no error recorded. -/
theorem bridgeApiPhase_ok (env : BridgeEnv) (a : Bool) (tx : BridgeTx)
    (h1 : env.apiSuccess = true) (h2 : env.apiTx = some tx)
    (h3 : ¬(tx.toAddress = "" ∨ tx.dataHex = ""))
    (h4 : ¬(jsStartsWith tx.toAddress "0x" = false ∨ jsLength tx.toAddress ≠ 42))
    (h5 : jsStartsWith tx.dataHex "0x" = true)
    (h6 : ¬jsLength tx.dataHex < 10)
    (h7 : env.gasEstimate = .ok ()) :
    bridgeApiPhase env a = ⟨true, a, true, none, true⟩ := by
  unfold bridgeApiPhase
  have h5' : ¬(jsStartsWith tx.dataHex "0x" = false) := by simp [h5]
  simp only [h1, h2, Bool.not_true, Bool.false_eq_true, if_false]
  rw [if_neg h3, if_neg h4, if_neg h5', if_neg h6, h7]

/-- Once the guard passes, routing succeeds and any needed chain switch
succeeds, the run is the approval phase followed by the bridge-API
phase. -/
theorem executeBridge_eq_phases (env : BridgeEnv) (cid : ℕ) (tok : String)
    (q : Quote) (t : ℕ)
    (hrec : env.hasRecipient = true)
    (hq : fetchPaymentQuote env.fetchOk env.result = .ok (q, t))
    (hsw : cid = t ∨ env.switchChain = .ok ()) :
    executeBridgeTransaction env cid tok =
      bridgeApiPhase env
        (approvalPhase env t (jsToUpper (jsOrString q.tokenSymbol tok))
          q.depositAmount) := by
  unfold executeBridgeTransaction
  rcases hsw with h | h
  · subst h
    simp [hrec, hq]
  · by_cases hct : cid = t
    · subst hct
      simp [hrec, hq]
    · simp [hrec, hq, hct, h]
/-- Claim C8 (counterexample): the quote resolves to destination chain
8453 with token `USDC`, exactly equal to the payment's source chain 8453
and source token `USDC` — yet the run still calls the bridge-build API and
submits the settlement through it (`bridgeApiCalled = true`): route
resolution produces no `isDirectTransfer` flag and the bridging path is
not skipped for a same-chain/same-asset route. -/
theorem direct_route_counterexample :
    fetchPaymentQuote envDirectRoute.fetchOk envDirectRoute.result =
      .ok (⟨"base", some "USDC", some ⟨1, 0⟩⟩, 8453) ∧
    jsToUpper (jsOrString (some "USDC") "USDC") = "USDC" ∧
    executeBridgeTransaction envDirectRoute 8453 "USDC" =
      ⟨true, false, true, none, true⟩ :=
  ⟨rfl, rfl, rfl⟩

/-- Claim C8 (amended): the payment flow has no direct-transfer
short-circuit — whenever routing succeeds, even when the quoted
destination chain equals the source chain and the quoted token equals the
selected token, the bridge-build API is called. -/
theorem same_chain_route_still_bridges (env : BridgeEnv) (cid : ℕ)
    (tok : String) (q : Quote)
    (hrec : env.hasRecipient = true)
    (hq : fetchPaymentQuote env.fetchOk env.result = .ok (q, cid))
    (_htok : jsToUpper (jsOrString q.tokenSymbol tok) = tok) :
    (executeBridgeTransaction env cid tok).bridgeApiCalled = true := by
  rw [executeBridge_eq_phases env cid tok q cid hrec hq (Or.inl rfl)]
  exact bridgeApiPhase_called env _

/-- Witness for claim C8 (amended): the same-chain/same-token environment
above still reaches the bridge-build API. -/
theorem same_chain_route_still_bridges_witness :
    (executeBridgeTransaction envDirectRoute 8453 "USDC").bridgeApiCalled =
      true :=
  same_chain_route_still_bridges envDirectRoute 8453 "USDC"
    ⟨"base", some "USDC", some ⟨1, 0⟩⟩ rfl rfl rfl

/-- Claim C9 (counterexample): with a failing allowance read the approval
check throws, yet the run records no error, proceeds to the bridge-build
API and submits the settlement — an approval-check error is swallowed
while execution continues to settlement, contradicting the claim that
only the confirmation wait is logging-only. -/
theorem approval_error_swallowed_counterexample :
    checkTokenApprovalNeeded 8453 "USDC" (.error "allowance read failed")
      (some ⟨1, 0⟩) = .error (.chainRead "allowance read failed") ∧
    executeBridgeTransaction envApprovalCheckFails 8453 "USDC" =
      ⟨true, false, true, none, true⟩ :=
  ⟨rfl, rfl⟩

/-- Claim C9 (amended): in `executeBridgeTransaction`, the entire approval
phase is logging-only — no outcome of the allowance read, the approval
signing, or the receipt wait gates the bridge-build call or the settlement
submission — while every error outside that phase surfaces as the
attempt's error with no settlement submitted: a quote-resolution failure
and a chain-switch failure stop before the bridge-build call; a failed
bridge-build response, a missing or empty transaction payload, a malformed
destination address, malformed or implausibly short transaction data, and
a failed gas estimation each surface their error with no settlement; only
a fully valid response leads to the single settlement submission with no
error. -/
theorem bridge_error_policy (env : BridgeEnv) (cid : ℕ) (tok : String) :
    (∀ msg, env.hasRecipient = true →
      fetchPaymentQuote env.fetchOk env.result = .error msg →
      executeBridgeTransaction env cid tok =
        ⟨false, false, false, some msg, false⟩) ∧
    (∀ q t msg, env.hasRecipient = true →
      fetchPaymentQuote env.fetchOk env.result = .ok (q, t) →
      cid ≠ t → env.switchChain = .error msg →
      executeBridgeTransaction env cid tok =
        ⟨false, false, false, some msg, false⟩) ∧
    (∀ q t, env.hasRecipient = true →
      fetchPaymentQuote env.fetchOk env.result = .ok (q, t) →
      cid = t ∨ env.switchChain = .ok () →
      (executeBridgeTransaction env cid tok).bridgeApiCalled = true ∧
      (env.apiSuccess = false →
        (executeBridgeTransaction env cid tok).settlementSubmitted = false ∧
        (executeBridgeTransaction env cid tok).error =
          some (jsOrString env.apiError
            "Failed to generate bridge transaction")) ∧
      (env.apiSuccess = true → env.apiTx = none →
        (executeBridgeTransaction env cid tok).settlementSubmitted = false ∧
        (executeBridgeTransaction env cid tok).error =
          some "Invalid bridge transaction data received from API") ∧
      (∀ tx, env.apiSuccess = true → env.apiTx = some tx →
        (tx.toAddress = "" ∨ tx.dataHex = "") →
        (executeBridgeTransaction env cid tok).settlementSubmitted = false ∧
        (executeBridgeTransaction env cid tok).error =
          some "Invalid bridge transaction data received from API") ∧
      (∀ tx, env.apiSuccess = true → env.apiTx = some tx →
        ¬(tx.toAddress = "" ∨ tx.dataHex = "") →
        (jsStartsWith tx.toAddress "0x" = false ∨
          jsLength tx.toAddress ≠ 42) →
        (executeBridgeTransaction env cid tok).settlementSubmitted = false ∧
        (executeBridgeTransaction env cid tok).error =
          some "Invalid transaction destination address") ∧
      (∀ tx, env.apiSuccess = true → env.apiTx = some tx →
        ¬(tx.toAddress = "" ∨ tx.dataHex = "") →
        ¬(jsStartsWith tx.toAddress "0x" = false ∨
          jsLength tx.toAddress ≠ 42) →
        jsStartsWith tx.dataHex "0x" = false →
        (executeBridgeTransaction env cid tok).settlementSubmitted = false ∧
        (executeBridgeTransaction env cid tok).error =
          some "Invalid transaction data format") ∧
      (∀ tx, env.apiSuccess = true → env.apiTx = some tx →
        ¬(tx.toAddress = "" ∨ tx.dataHex = "") →
        ¬(jsStartsWith tx.toAddress "0x" = false ∨
          jsLength tx.toAddress ≠ 42) →
        jsStartsWith tx.dataHex "0x" = true →
        jsLength tx.dataHex < 10 →
        (executeBridgeTransaction env cid tok).settlementSubmitted = false ∧
        (executeBridgeTransaction env cid tok).error =
          some "Transaction data too short") ∧
      (∀ tx g, env.apiSuccess = true → env.apiTx = some tx →
        ¬(tx.toAddress = "" ∨ tx.dataHex = "") →
        ¬(jsStartsWith tx.toAddress "0x" = false ∨
          jsLength tx.toAddress ≠ 42) →
        jsStartsWith tx.dataHex "0x" = true →
        ¬jsLength tx.dataHex < 10 →
        env.gasEstimate = .error g →
        (executeBridgeTransaction env cid tok).settlementSubmitted = false ∧
        (executeBridgeTransaction env cid tok).error =
          some ("Gas estimation failed: " ++ g)) ∧
      (∀ tx, env.apiSuccess = true → env.apiTx = some tx →
        ¬(tx.toAddress = "" ∨ tx.dataHex = "") →
        ¬(jsStartsWith tx.toAddress "0x" = false ∨
          jsLength tx.toAddress ≠ 42) →
        jsStartsWith tx.dataHex "0x" = true →
        ¬jsLength tx.dataHex < 10 →
        env.gasEstimate = .ok () →
        (executeBridgeTransaction env cid tok).settlementSubmitted = true ∧
        (executeBridgeTransaction env cid tok).error = none)) ∧
    (∀ b, executeBridgeTransaction { env with waitReceiptOk := b } cid tok =
      executeBridgeTransaction env cid tok) := by
  refine ⟨?_, ?_, ?_, ?_⟩
  · intro msg hrec hq
    unfold executeBridgeTransaction
    simp [hrec, hq]
  · intro q t msg hrec hq hne hsw
    unfold executeBridgeTransaction
    simp [hrec, hq, hne, hsw]
  · intro q t hrec hq hsw
    rw [executeBridge_eq_phases env cid tok q t hrec hq hsw]
    refine ⟨bridgeApiPhase_called env _, ?_, ?_, ?_, ?_, ?_, ?_, ?_, ?_⟩
    · intro hfail
      rw [bridgeApiPhase_apiFail env _ hfail]
      exact ⟨rfl, rfl⟩
    · intro h1 h2
      rw [bridgeApiPhase_noTx env _ h1 h2]
      exact ⟨rfl, rfl⟩
    · intro tx h1 h2 h3
      rw [bridgeApiPhase_emptyTx env _ tx h1 h2 h3]
      exact ⟨rfl, rfl⟩
    · intro tx h1 h2 h3 h4
      rw [bridgeApiPhase_badTo env _ tx h1 h2 h3 h4]
      exact ⟨rfl, rfl⟩
    · intro tx h1 h2 h3 h4 h5
      rw [bridgeApiPhase_badData env _ tx h1 h2 h3 h4 h5]
      exact ⟨rfl, rfl⟩
    · intro tx h1 h2 h3 h4 h5 h6
      rw [bridgeApiPhase_shortData env _ tx h1 h2 h3 h4 h5 h6]
      exact ⟨rfl, rfl⟩
    · intro tx g h1 h2 h3 h4 h5 h6 h7
      rw [bridgeApiPhase_gasFail env _ tx g h1 h2 h3 h4 h5 h6 h7]
      exact ⟨rfl, rfl⟩
    · intro tx h1 h2 h3 h4 h5 h6 h7
      rw [bridgeApiPhase_ok env _ tx h1 h2 h3 h4 h5 h6 h7]
      exact ⟨rfl, rfl⟩
  · intro b
    obtain ⟨rec, fok, res, sw, alw, sa, w, asucc, aerr, atx, gas⟩ := env
    rfl

/-- Witness for claim C9 (amended): instantiated on the concrete
approval-check-failure environment — the bridge-build API is still called
despite the failed allowance read; a failed chain switch stops the run
with that error and no bridge call; a failed gas estimation stops the run
with its error; and the receipt-wait outcome does not change the run. -/
theorem bridge_error_policy_witness :
    (executeBridgeTransaction envApprovalCheckFails 8453 "USDC").bridgeApiCalled
        = true ∧
    executeBridgeTransaction
        { envApprovalCheckFails with switchChain := .error "switch rejected" }
        1 "USDC" =
      ⟨false, false, false, some "switch rejected", false⟩ ∧
    (executeBridgeTransaction
        { envApprovalCheckFails with gasEstimate := .error "execution reverted" }
        8453 "USDC").error =
      some ("Gas estimation failed: " ++ "execution reverted") ∧
    executeBridgeTransaction
        { envApprovalCheckFails with waitReceiptOk := false } 8453 "USDC" =
      executeBridgeTransaction envApprovalCheckFails 8453 "USDC" :=
  ⟨((bridge_error_policy envApprovalCheckFails 8453 "USDC").2.2.1
      ⟨"base", some "USDC", some ⟨1, 0⟩⟩ 8453 rfl rfl (Or.inl rfl)).1,
   (bridge_error_policy
      { envApprovalCheckFails with switchChain := .error "switch rejected" }
      1 "USDC").2.1
      ⟨"base", some "USDC", some ⟨1, 0⟩⟩ 8453 "switch rejected" rfl rfl
      (by decide) rfl,
   (((bridge_error_policy
      { envApprovalCheckFails with gasEstimate := .error "execution reverted" }
      8453 "USDC").2.2.1
      ⟨"base", some "USDC", some ⟨1, 0⟩⟩ 8453 rfl rfl
      (Or.inl rfl)).2.2.2.2.2.2.2.1
      ⟨"0x6a2A5B7D0434CC5b77e304bc9D68C20Dee805152", "0x1234567890"⟩
      "execution reverted" rfl rfl (by decide) (by decide) (by decide)
      (by decide) rfl).2,
   (bridge_error_policy envApprovalCheckFails 8453 "USDC").2.2.2 false⟩

/-! ## Theorems: confirmation idempotency (claim C1) and status machine (claim C10) -/

/-- Claim C1: confirmation handling is idempotent per transaction hash —
(i) from a state awaiting the settlement confirmation, a confirmation
event fires the completion side effects exactly once: the single
`updateRequestStatus(_, "ACCEPTED")` effect together with the full reset
of the attempt-scoped state; (ii) re-delivering the same confirmation to
the App effect is a silent no-op (state unchanged, no effects);
(iii) re-delivering the same confirmation to the PayPopup effect likewise
re-runs no completion side effect. -/
theorem settlement_confirmation_idempotent (s : AppState)
    (hash : Option String) (requestId : String) (p : PayPopupState)
    (ph : String)
    (hreq : s.currentPayingRequest = some requestId)
    (hstep : s.paymentStep = some .payment)
    (hnew : s.lastProcessedHash ≠ hash) :
    onTransactionConfirmed s true hash =
      ((⟨none, none, none, none⟩ : AppState),
        [.updateRequestStatus requestId "ACCEPTED"]) ∧
    (∀ s' : AppState, ∀ h' : Option String,
      onTransactionConfirmed (onTransactionConfirmed s' true h').1 true h' =
        ((onTransactionConfirmed s' true h').1, [])) ∧
    (payPopupOnConfirmed (payPopupOnConfirmed p true (some ph)).1 true
      (some ph)).2 = [] := by
  refine ⟨?_, ?_, ?_⟩
  · unfold onTransactionConfirmed
    rw [hreq, hstep]
    simp [hnew]
  · intro s' h'
    unfold onTransactionConfirmed
    cases hr : s'.currentPayingRequest with
    | none => simp [hr]
    | some rid =>
      cases hst : s'.paymentStep with
      | none => simp [hr, hst]
      | some step =>
        by_cases hg : s'.lastProcessedHash = h'
        · simp [hr, hst, hg]
        · cases step with
          | approval => simp [hr, hst, hg]
          | payment => simp [hr, hst, hg]
  · unfold payPopupOnConfirmed
    by_cases hm : ph ∈ p.processedTransactions
    · simp [hm]
    · by_cases hb : p.isBridgeStep
      · simp [hm, hb]
      · simp [hm, hb]

/-- Witness for claim C1: a concrete attempt awaiting its settlement
confirmation processes hash `"0xsettle"` exactly once; the repeated
delivery is a no-op in both the App and the PayPopup effect. -/
theorem settlement_confirmation_idempotent_witness :
    onTransactionConfirmed
        ⟨some "req1", some .payment, some "req1", some "0xapprove"⟩ true
        (some "0xsettle") =
      ((⟨none, none, none, none⟩ : AppState),
        [.updateRequestStatus "req1" "ACCEPTED"]) ∧
    (∀ s' : AppState, ∀ h' : Option String,
      onTransactionConfirmed (onTransactionConfirmed s' true h').1 true h' =
        ((onTransactionConfirmed s' true h').1, [])) ∧
    (payPopupOnConfirmed
      (payPopupOnConfirmed ⟨[], true, true⟩ true (some "0xsettle")).1 true
      (some "0xsettle")).2 = [] :=
  settlement_confirmation_idempotent
    ⟨some "req1", some .payment, some "req1", some "0xapprove"⟩
    (some "0xsettle") "req1" ⟨[], true, true⟩ "0xsettle" rfl rfl (by decide)

/-- Claim C10 (counterexample): the PATCH handler happily moves an
`ACCEPTED` request to `REJECTED` — a later `updateStatus` call changes the
status of a request that is already terminal, so the status machine is not
terminal once non-`PENDING`. -/
theorem updateStatus_not_terminal_counterexample :
    patchFundRequest (some .ACCEPTED) "REJECTED" = .ok .REJECTED ∧
    RequestStatus.REJECTED ≠ RequestStatus.ACCEPTED :=
  ⟨rfl, by decide⟩

/-- Claim C10 (amended): `updateStatus` validates only that the new status
string is one of `PENDING`, `ACCEPTED`, `REJECTED`, `EXPIRED` (rejecting
anything else with a 400) and otherwise overwrites the stored status
unconditionally, whatever the current status — no transition is
prevented. -/
theorem updateStatus_unconditional_overwrite (current : RequestStatus)
    (s : String) :
    (∀ st, parseStatus s = some st →
      patchFundRequest (some current) s = .ok st) ∧
    (parseStatus s = none → patchFundRequest (some current) s = .badRequest) := by
  constructor
  · intro st h
    unfold patchFundRequest
    rw [h]
  · intro h
    unfold patchFundRequest
    rw [h]

/-- Witness for claim C10 (amended): an `ACCEPTED` request is overwritten
to `REJECTED`, and an unknown status string is rejected with 400. -/
theorem updateStatus_unconditional_overwrite_witness :
    patchFundRequest (some .ACCEPTED) "REJECTED" = .ok .REJECTED ∧
    patchFundRequest (some .PENDING) "BOGUS" = .badRequest :=
  ⟨(updateStatus_unconditional_overwrite .ACCEPTED "REJECTED").1 .REJECTED rfl,
   (updateStatus_unconditional_overwrite .PENDING "BOGUS").2 rfl⟩

